import Mathlib

/-!
Shallow embedding of the CHIP-8 emulator core found in src/chip8.py.

Modelling conventions:
* Python lists of ints become List Nat.  Python raises IndexError when an
  index is out of range; reads and writes are therefore modelled with
  Option (none is the IndexError crash).  All indices that occur in the
  emulator are nonnegative, so negative-index wraparound never arises.
* Python ints are unbounded; Nat is used wherever a value is provably
  nonnegative, and Int (with Int.emod, which matches the sign behaviour of
  the Python % operator) where an intermediate can be negative (the
  subtractions in 8xy5 and 8xy7, the stack-pointer decrement, and the
  coordinate tests in set_pixel).
* The random byte drawn by the Cxnn instruction (random.randint(0, 255))
  is passed to tick as an extra argument rnd.
* pygame, rendering, input handling and the outer frame loop are outside
  the embedded core, which covers Emulator.set_pixel, Emulator.load_rom
  (its memory-copy loop, with the file contents passed as a byte list),
  Emulator.update_timers and Emulator.tick.
-/

/-- Python list read l[i] for a nonnegative index: none is IndexError. -/
def pyGet (l : List Nat) (i : Nat) : Option Nat := l.get? i

/-- Python list write l[i] = v for a nonnegative index: none is IndexError. -/
def pySet (l : List Nat) (i : Nat) (v : Nat) : Option (List Nat) :=
  if i < l.length then some (l.set i v) else none

/-- Python int(not v): 0 becomes 1, any nonzero value becomes 0. -/
def pyNot (v : Nat) : Nat := if v = 0 then 1 else 0

/-- The state of the Emulator object: memory, registers, index register,
program counter, stack and stack pointer, key states, timers, the
last-pressed-key latch (kb_interrupt), the display-refresh flag
(interrupted), the display buffer, the display resolution and the seven
compatibility quirks chosen at construction time. -/
structure Chip8 where
  mem : List Nat
  regs : List Nat
  i_reg : Nat
  pc : Nat
  stack : List Nat
  sp : Nat
  kb : List Nat
  sound_timer : Nat
  delay_timer : Nat
  kb_interrupt : Option Nat
  interrupted : Bool
  disp : List Nat
  resW : Nat
  resH : Nat
  QUIRK_vF_reset : Bool
  QUIRK_memory : Bool
  QUIRK_disp_wait : Bool
  QUIRK_disp_wait_faker : Bool
  QUIRK_clipping : Bool
  QUIRK_shifting : Bool
  QUIRK_jumping : Bool
deriving DecidableEq

/-- Emulator.set_pixel.  With the clipping quirk, coordinates outside the
display return 1 immediately (the source literally returns 1 from both
out-of-range branches).  Otherwise the pixel at
(x % resW) + (y % resH) * 64 is XOR-toggled and the value returned is
int(not disp[pos]) read back after the toggle, i.e. the old pixel value. -/
def set_pixel (s : Chip8) (x y : Int) : Option (Chip8 × Nat) :=
  if s.QUIRK_clipping = true ∧
      ((s.resW : Int) ≤ x ∨ (s.resH : Int) ≤ y ∨ x < 0 ∨ y < 0) then
    some (s, 1)
  else
    let pos : Nat := (x % (s.resW : Int) + y % (s.resH : Int) * 64).toNat
    match pyGet s.disp pos with
    | none => none
    | some v =>
      match pySet s.disp pos (pyNot v) with
      | none => none
      | some d => some ({ s with disp := d }, pyNot (pyNot v))

/-- Emulator.update_timers: each timer is decremented when nonzero. -/
def update_timers (s : Chip8) : Chip8 :=
  let s1 := if s.delay_timer > 0 then { s with delay_timer := s.delay_timer - 1 } else s
  if s1.sound_timer > 0 then { s1 with sound_timer := s1.sound_timer - 1 } else s1

/-- Inner column loop of the Dxyn case: for each of the remaining columns,
if the high bit of the shifted sprite byte is set, set_pixel is called at
(regs[x] % 64 + col, regs[y] % 32 + row) and a truthy return sets VF.
The registers are re-read from the current state on every iteration,
exactly as the source re-evaluates self.regs[x] inside the loop. -/
def drawCols (x y row : Nat) : Nat → Nat → Nat → Chip8 → Option Chip8
  | _, _, 0, s => some s
  | sprite, col, rem + 1, s =>
    let step : Option Chip8 :=
      if sprite &&& 0x80 > 0 then
        match pyGet s.regs x, pyGet s.regs y with
        | some vx, some vy =>
          match set_pixel s ((vx % 64 + col : Nat) : Int) ((vy % 32 + row : Nat) : Int) with
          | none => none
          | some (t, coll) =>
            if coll ≠ 0 then
              match pySet t.regs 0xF 1 with
              | none => none
              | some r => some { t with regs := r }
            else some t
        | _, _ => none
      else some s
    match step with
    | none => none
    | some s1 => drawCols x y row ((sprite <<< 1) &&& 0x00FF) (col + 1) rem s1

/-- Outer row loop of the Dxyn case: read the sprite byte at mem[I + row]
and run the eight-column inner loop. -/
def drawRows (x y : Nat) : Nat → Nat → Chip8 → Option Chip8
  | _, 0, s => some s
  | row, rem + 1, s =>
    match pyGet s.mem (s.i_reg + row) with
    | none => none
    | some sprite =>
      match drawCols x y row sprite 0 8 s with
      | none => none
      | some s1 => drawRows x y (row + 1) rem s1

/-- Body of the Dxyn case once any display wait is resolved: VF is reset
to 0 and the n-row sprite is drawn. -/
def drawBody (s : Chip8) (opcode x y : Nat) : Option (Chip8 × Bool) :=
  let height := opcode &&& 0x000F
  match pySet s.regs 0xF 0 with
  | none => none
  | some r =>
    match drawRows x y 0 height { s with regs := r } with
    | none => none
    | some t => some (t, false)

/-- Shared body of the 8xy1 / 8xy2 / 8xy3 cases: combine Vx and Vy with
the given bitwise operation, then reset VF when the vF_reset quirk is on. -/
def aluBitOp (s : Chip8) (x y : Nat) (f : Nat → Nat → Nat) : Option (Chip8 × Bool) :=
  match pyGet s.regs x, pyGet s.regs y with
  | some vx, some vy =>
    match pySet s.regs x (f vx vy) with
    | none => none
    | some r1 =>
      if s.QUIRK_vF_reset then
        match pySet r1 0xF 0 with
        | none => none
        | some r2 => some ({ s with regs := r2 }, false)
      else some ({ s with regs := r1 }, false)
  | _, _ => none

/-- Loop of the Fx55 case: mem[I + i] = regs[i] for i in range(x + 1). -/
def storeRegs : Nat → Nat → Chip8 → Option Chip8
  | _, 0, s => some s
  | i, rem + 1, s =>
    match pyGet s.regs i with
    | none => none
    | some v =>
      match pySet s.mem (s.i_reg + i) v with
      | none => none
      | some m => storeRegs (i + 1) rem { s with mem := m }

/-- Loop of the Fx65 case: regs[i] = mem[I + i] for i in range(x + 1). -/
def loadRegs : Nat → Nat → Chip8 → Option Chip8
  | _, 0, s => some s
  | i, rem + 1, s =>
    match pyGet s.mem (s.i_reg + i) with
    | none => none
    | some v =>
      match pySet s.regs i v with
      | none => none
      | some r => loadRegs (i + 1) rem { s with regs := r }

/-- Emulator.tick up to but not including the final
self.kb_interrupt = None statement.  The Bool in the result is true
exactly when the source executed one of its two early return statements
(the display-wait rollback in the 0xD000 case and the key-wait rollback in
the 0xFx0A case), which skip that final statement.

Notes kept faithful to the source:
* sp -= 1; sp %= len(stack) is modelled with Int.emod because Python %
  maps -1 to len - 1.
* The 8xy5 and 8xy7 cases write the possibly negative difference into
  regs[x], derive VF from its sign, then mask regs[x] with 0xFF.  A
  List Nat cannot hold the negative intermediate, so the net effect of the
  three statements is written directly: VF gets the borrow flag, and
  regs[x] gets difference mod 256 - except when x = 0xF, where the final
  mask re-reads the just-written flag, so the flag value wins.  The same
  final-value reasoning is spelled out step by step (with re-reads) in the
  8xy4, 8xy6 and 8xyE cases.
* The 0x5000 case ignores the low nibble, as the source does, so words
  like 0x5xy1 execute as 5xy0. -/
def tickAux (s0 : Chip8) (rnd : Nat) : Option (Chip8 × Bool) :=
  match pyGet s0.mem s0.pc, pyGet s0.mem (s0.pc + 1) with
  | some hi, some lo =>
    let opcode := hi <<< 8 ||| lo
    let x := (opcode &&& 0x0F00) >>> 8
    let y := (opcode &&& 0x00F0) >>> 4
    let s : Chip8 := { s0 with pc := s0.pc + 2 }
    match opcode &&& 0xF000 with
    | 0x0000 =>
      match opcode &&& 0x00FF with
      | 0x00E0 => some ({ s with disp := List.replicate (s.resW * s.resH) 0 }, false)
      | 0x00EE =>
        match pyGet s.stack s.sp with
        | none => none
        | some hb =>
          let sp1 : Nat := (((s.sp : Int) - 1) % (s.stack.length : Int)).toNat
          match pyGet s.stack sp1 with
          | none => none
          | some lb =>
            let sp2 : Nat := (((sp1 : Int) - 1) % (s.stack.length : Int)).toNat
            some ({ s with pc := hb <<< 8 ||| lb, sp := sp2 }, false)
      | _ => some (s, false)
    | 0x1000 => some ({ s with pc := opcode &&& 0x0FFF }, false)
    | 0x2000 =>
      let sp1 := (s.sp + 1) % s.stack.length
      match pySet s.stack sp1 (s.pc &&& 0x00FF) with
      | none => none
      | some st1 =>
        let sp2 := (sp1 + 1) % st1.length
        match pySet st1 sp2 (s.pc >>> 8) with
        | none => none
        | some st2 =>
          some ({ s with stack := st2, sp := sp2, pc := opcode &&& 0x0FFF }, false)
    | 0x3000 =>
      match pyGet s.regs x with
      | none => none
      | some vx =>
        some ((if vx = opcode &&& 0x00FF then { s with pc := s.pc + 2 } else s), false)
    | 0x4000 =>
      match pyGet s.regs x with
      | none => none
      | some vx =>
        some ((if vx ≠ opcode &&& 0x00FF then { s with pc := s.pc + 2 } else s), false)
    | 0x5000 =>
      match pyGet s.regs x, pyGet s.regs y with
      | some vx, some vy =>
        some ((if vx = vy then { s with pc := s.pc + 2 } else s), false)
      | _, _ => none
    | 0x6000 =>
      match pySet s.regs x (opcode &&& 0x00FF) with
      | none => none
      | some r => some ({ s with regs := r }, false)
    | 0x7000 =>
      match pyGet s.regs x with
      | none => none
      | some vx =>
        match pySet s.regs x ((vx + (opcode &&& 0x00FF)) &&& 0x00FF) with
        | none => none
        | some r => some ({ s with regs := r }, false)
    | 0x8000 =>
      match opcode &&& 0x000F with
      | 0x0000 =>
        match pyGet s.regs y with
        | none => none
        | some vy =>
          match pySet s.regs x vy with
          | none => none
          | some r => some ({ s with regs := r }, false)
      | 0x0001 => aluBitOp s x y (fun a b => a ||| b)
      | 0x0002 => aluBitOp s x y (fun a b => a &&& b)
      | 0x0003 => aluBitOp s x y (fun a b => a ^^^ b)
      | 0x0004 =>
        match pyGet s.regs x, pyGet s.regs y with
        | some vx, some vy =>
          match pySet s.regs x (vx + vy) with
          | none => none
          | some r1 =>
            match pyGet r1 x with
            | none => none
            | some t =>
              match pySet r1 0xF (if t > 0xFF then 1 else 0) with
              | none => none
              | some r2 =>
                match pyGet r2 x with
                | none => none
                | some t2 =>
                  match pySet r2 x (t2 &&& 0x00FF) with
                  | none => none
                  | some r3 => some ({ s with regs := r3 }, false)
        | _, _ => none
      | 0x0005 =>
        match pyGet s.regs x, pyGet s.regs y with
        | some vx, some vy =>
          let t : Int := (vx : Int) - (vy : Int)
          let flag : Nat := if t < 0 then 0 else 1
          match pySet s.regs 0xF flag with
          | none => none
          | some r1 =>
            match pySet r1 x (if x = 0xF then flag else (t % 256).toNat) with
            | none => none
            | some r2 => some ({ s with regs := r2 }, false)
        | _, _ => none
      | 0x0006 =>
        let r0 : Option (List Nat) :=
          if s.QUIRK_shifting then some s.regs
          else
            match pyGet s.regs y with
            | none => none
            | some vy => pySet s.regs x vy
        match r0 with
        | none => none
        | some rA =>
          match pyGet rA x with
          | none => none
          | some Rx =>
            match pySet rA x (Rx >>> 1) with
            | none => none
            | some r1 =>
              match pySet r1 0xF (Rx &&& 0x0001) with
              | none => none
              | some r2 =>
                match pyGet r2 x with
                | none => none
                | some t =>
                  match pySet r2 x (t &&& 0x00FF) with
                  | none => none
                  | some r3 => some ({ s with regs := r3 }, false)
      | 0x0007 =>
        match pyGet s.regs x, pyGet s.regs y with
        | some vx, some vy =>
          let t : Int := (vy : Int) - (vx : Int)
          let flag : Nat := if t < 0 then 0 else 1
          match pySet s.regs 0xF flag with
          | none => none
          | some r1 =>
            match pySet r1 x (if x = 0xF then flag else (t % 256).toNat) with
            | none => none
            | some r2 => some ({ s with regs := r2 }, false)
        | _, _ => none
      | 0x000E =>
        let r0 : Option (List Nat) :=
          if s.QUIRK_shifting then some s.regs
          else
            match pyGet s.regs y with
            | none => none
            | some vy => pySet s.regs x vy
        match r0 with
        | none => none
        | some rA =>
          match pyGet rA x with
          | none => none
          | some Rx =>
            match pySet rA x (Rx <<< 1) with
            | none => none
            | some r1 =>
              match pySet r1 0xF ((Rx &&& 0x0080) >>> 7) with
              | none => none
              | some r2 =>
                match pyGet r2 x with
                | none => none
                | some t =>
                  match pySet r2 x (t &&& 0x00FF) with
                  | none => none
                  | some r3 => some ({ s with regs := r3 }, false)
      | _ => some (s, false)
    | 0x9000 =>
      match pyGet s.regs x, pyGet s.regs y with
      | some vx, some vy =>
        some ((if vx ≠ vy then { s with pc := s.pc + 2 } else s), false)
      | _, _ => none
    | 0xA000 => some ({ s with i_reg := opcode &&& 0x0FFF }, false)
    | 0xB000 =>
      match pyGet s.regs (if s.QUIRK_jumping then x else 0) with
      | none => none
      | some v => some ({ s with pc := (opcode &&& 0x0FFF) + v }, false)
    | 0xC000 =>
      match pySet s.regs x (rnd &&& (opcode &&& 0x00FF)) with
      | none => none
      | some r => some ({ s with regs := r }, false)
    | 0xD000 =>
      if s.QUIRK_disp_wait then
        if s.QUIRK_disp_wait_faker then
          drawBody (update_timers s) opcode x y
        else
          if s.interrupted then
            drawBody { s with interrupted := false } opcode x y
          else
            some ({ s with pc := s.pc - 2 }, true)
      else
        drawBody s opcode x y
    | 0xE000 =>
      match opcode &&& 0x00FF with
      | 0x009E =>
        match pyGet s.regs x with
        | none => none
        | some vx =>
          match pyGet s.kb vx with
          | none => none
          | some k => some ((if k ≠ 0 then { s with pc := s.pc + 2 } else s), false)
      | 0x00A1 =>
        match pyGet s.regs x with
        | none => none
        | some vx =>
          match pyGet s.kb vx with
          | none => none
          | some k => some ((if k = 0 then { s with pc := s.pc + 2 } else s), false)
      | _ => some (s, false)
    | 0xF000 =>
      match opcode &&& 0x00FF with
      | 0x0007 =>
        match pySet s.regs x s.delay_timer with
        | none => none
        | some r => some ({ s with regs := r }, false)
      | 0x000A =>
        match s.kb_interrupt with
        | some k =>
          match pySet s.regs x k with
          | none => none
          | some r => some ({ s with regs := r, kb_interrupt := none }, false)
        | none => some ({ s with pc := s.pc - 2 }, true)
      | 0x0015 =>
        match pyGet s.regs x with
        | none => none
        | some vx => some ({ s with delay_timer := vx }, false)
      | 0x0018 =>
        match pyGet s.regs x with
        | none => none
        | some vx => some ({ s with sound_timer := vx }, false)
      | 0x001E =>
        match pyGet s.regs x with
        | none => none
        | some vx => some ({ s with i_reg := (s.i_reg + vx) &&& 0x0FFF }, false)
      | 0x0029 =>
        match pyGet s.regs x with
        | none => none
        | some vx => some ({ s with i_reg := (vx * 5) &&& 0x0FFF }, false)
      | 0x0033 =>
        match pyGet s.regs x with
        | none => none
        | some vx =>
          match pySet s.mem (s.i_reg + 0) (vx / 100) with
          | none => none
          | some m1 =>
            match pySet m1 (s.i_reg + 1) ((vx % 100) / 10) with
            | none => none
            | some m2 =>
              match pySet m2 (s.i_reg + 2) (vx % 10) with
              | none => none
              | some m3 => some ({ s with mem := m3 }, false)
      | 0x0055 =>
        match storeRegs 0 (x + 1) s with
        | none => none
        | some t =>
          if s.QUIRK_memory then
            some ({ t with i_reg := (t.i_reg + x + 1) &&& 0x0FFF }, false)
          else some (t, false)
      | 0x0065 =>
        match loadRegs 0 (x + 1) s with
        | none => none
        | some t =>
          if s.QUIRK_memory then
            some ({ t with i_reg := (t.i_reg + x + 1) &&& 0x0FFF }, false)
          else some (t, false)
      | _ => some (s, false)
    | _ => some (s, false)
  | _, _ => none

/-- Emulator.tick: run tickAux, then clear the key latch unless the step
went through one of the early return statements. -/
def tick (s : Chip8) (rnd : Nat) : Option Chip8 :=
  match tickAux s rnd with
  | none => none
  | some (t, early) => if early then some t else some { t with kb_interrupt := none }

/-- Iterate tick n times with the random byte fixed at 0. -/
def iterTick : Nat → Chip8 → Option Chip8
  | 0, s => some s
  | n + 1, s =>
    match tick s 0 with
    | none => none
    | some t => iterTick n t

/-- Copy loop of Emulator.load_rom: mem[addr + i] = data[i] for each i. -/
def writeBytes : List Nat → Nat → List Nat → Option (List Nat)
  | m, _, [] => some m
  | m, addr, b :: rest =>
    match pySet m addr b with
    | none => none
    | some m1 => writeBytes m1 (addr + 1) rest

/-- Emulator.load_rom with the file contents passed as a byte list: the
bytes are copied into memory starting at 0x200 with no size check. -/
def load_rom (s : Chip8) (data : List Nat) : Option Chip8 :=
  match writeBytes s.mem 0x200 data with
  | none => none
  | some m => some { s with mem := m }

/-- Convenience fixture: a freshly constructed machine with the default
resolution 64 by 32, empty 4 KiB-shaped components shrunk to what each test
needs, and the construction-default quirks except that disp_wait is off so
that draw instructions execute immediately.  Individual fixtures below
override fields as needed. -/
def baseState : Chip8 :=
  { mem := [], regs := List.replicate 16 0, i_reg := 0, pc := 0,
    stack := List.replicate 48 0, sp := 0, kb := List.replicate 16 0,
    sound_timer := 0, delay_timer := 0, kb_interrupt := none, interrupted := false,
    disp := List.replicate 2048 0, resW := 64, resH := 32,
    QUIRK_vF_reset := true, QUIRK_memory := true, QUIRK_disp_wait := false,
    QUIRK_disp_wait_faker := false, QUIRK_clipping := true,
    QUIRK_shifting := false, QUIRK_jumping := false }

-- C1: clipped pixel sets VF

def c1State : Chip8 :=
  { baseState with
    mem := [0xD0, 0x01, 0x01],
    regs := 63 :: List.replicate 15 0, i_reg := 2 }

def c2UnderState : Chip8 := { baseState with mem := [0x00, 0xEE] }

def c2OverState : Chip8 := { baseState with mem := [0x23, 0x00], sp := 46 }

def c3State : Chip8 :=
  { baseState with
    mem := [0x8F, 0x04],
    regs := List.replicate 15 0 ++ [2] }

def c3WitState : Chip8 :=
  { mem := [0x81, 0x24], regs := [0, 200, 100, 0, 0, 0, 0, 0, 0, 0, 0, 0, 0, 0, 0, 0],
    i_reg := 0, pc := 0, stack := List.replicate 48 0, sp := 0,
    kb := List.replicate 16 0, sound_timer := 0, delay_timer := 0,
    kb_interrupt := none, interrupted := false, disp := [], resW := 64, resH := 32,
    QUIRK_vF_reset := true, QUIRK_memory := true, QUIRK_disp_wait := false,
    QUIRK_disp_wait_faker := false, QUIRK_clipping := true,
    QUIRK_shifting := false, QUIRK_jumping := false }

def c4State : Chip8 :=
  { baseState with
    mem := [0xD0, 0x01, 0x01], i_reg := 2,
    QUIRK_disp_wait := true, kb_interrupt := some 5 }

def c5State : Chip8 :=
  { baseState with
    mem := ((List.replicate 4096 0).set 0 0xF0).set 1 0x33,
    i_reg := 0xFFE }

def c5aState : Chip8 := { c3WitState with mem := [0xF0, 0x1E], regs := List.replicate 16 0 }

def c5aT : Chip8 := { c5aState with pc := 2 }

def c5bState : Chip8 := { c5aState with mem := [0xF2, 0x33] }

def memState : Chip8 := { baseState with mem := List.replicate 4096 0 }

def c7State : Chip8 := { baseState with mem := [0x00, 0x00], kb_interrupt := some 3 }

def c8State : Chip8 := { baseState with mem := [0x20, 0x00] }

def c10State : Chip8 := { baseState with mem := [0x12, 0x34] }

def rtState : Chip8 :=
  { baseState with mem := ((List.replicate 32 0).set 0 0x20).set 1 0x10 |>.set 0x10 0x00 |>.set 0x11 0xEE }

def c9St (a b : Nat) (clip : Bool) : Chip8 :=
  { mem := [0xD0, 0x11, 0x80],
    regs := [a, b, 0, 0, 0, 0, 0, 0, 0, 0, 0, 0, 0, 0, 0, 0],
    i_reg := 2, pc := 0, stack := List.replicate 48 0, sp := 0,
    kb := List.replicate 16 0, sound_timer := 0, delay_timer := 0,
    kb_interrupt := none, interrupted := false,
    disp := List.replicate 2048 0, resW := 64, resH := 32,
    QUIRK_vF_reset := true, QUIRK_memory := true, QUIRK_disp_wait := false,
    QUIRK_disp_wait_faker := false, QUIRK_clipping := clip,
    QUIRK_shifting := false, QUIRK_jumping := false }

/-- Fixture for the VF-monotonicity witness: VF is already 1, the single
sprite byte 0x80 will clear the set pixel at the origin (a collision). -/
def c1Wit2 : Chip8 :=
  { c9St 0 0 true with
    regs := List.replicate 15 0 ++ [1], mem := [0x80], i_reg := 0, disp := [1] }

/-- Expected result state of the draw in the VF-monotonicity witness: the
lone set pixel was cleared by the collision, VF stayed 1. -/
def c1WitT : Chip8 := { c1Wit2 with disp := [0] }

theorem pyNot_zero : pyNot 0 = 1 := rfl

theorem pyNot_one : pyNot 1 = 0 := rfl

theorem pySet_eq {l : List Nat} {i v : Nat} {r : List Nat}
    (h : pySet l i v = some r) : i < l.length ∧ r = l.set i v := by
  unfold pySet at h
  split at h <;> simp_all

theorem aluBitOp_snd {s : Chip8} {x y : Nat} {f : Nat → Nat → Nat} {c : Chip8} {b : Bool}
    (h : aluBitOp s x y f = some (c, b)) : b = false := by
  unfold aluBitOp at h
  repeat (any_goals (split at h))
  all_goals simp_all

theorem drawBody_snd {s : Chip8} {opcode x y : Nat} {c : Chip8} {b : Bool}
    (h : drawBody s opcode x y = some (c, b)) : b = false := by
  unfold drawBody at h
  dsimp only [] at h
  repeat (any_goals (split at h))
  all_goals simp_all

theorem tickAux_early {s : Chip8} {rnd : Nat} {t : Chip8}
    (h : tickAux s rnd = some (t, true)) :
    t.pc = s.pc ∧ t.kb_interrupt = s.kb_interrupt := by
  unfold tickAux at h
  split at h
  case h_2 => simp_all
  case h_1 =>
    dsimp only [] at h
    repeat (any_goals (split at h))
    all_goals
      first
      | (simp_all; done)
      | (simp_all; subst h; exact ⟨rfl, rfl⟩)
      | (have hcontra := aluBitOp_snd h; simp at hcontra)
      | (have hcontra := drawBody_snd h; simp at hcontra)

theorem set_pixel_clip (s : Chip8) (x y : Int)
    (hc : s.QUIRK_clipping = true)
    (hor : (s.resW : Int) ≤ x ∨ (s.resH : Int) ≤ y ∨ x < 0 ∨ y < 0) :
    set_pixel s x y = some (s, 1) := by
  unfold set_pixel
  rw [if_pos ⟨hc, hor⟩]

theorem set_pixel_inb (s : Chip8) (x y old : Nat)
    (hx : x < s.resW) (hy : y < s.resH)
    (hold : pyGet s.disp (x + y * 64) = some old) :
    set_pixel s (x : Int) (y : Int) =
      some ({ s with disp := s.disp.set (x + y * 64) (pyNot old) }, pyNot (pyNot old)) := by
  have hlt : x + y * 64 < s.disp.length := by
    rw [pyGet, List.get?_eq_getElem?] at hold
    exact (List.getElem?_eq_some_iff.mp hold).1
  unfold set_pixel
  rw [if_neg (by rintro ⟨-, h⟩; omega)]
  dsimp only []
  rw [show ((x : Int) % (s.resW : Int) + (y : Int) % (s.resH : Int) * 64).toNat =
      x + y * 64 from by
    rw [Int.emod_eq_of_lt (by omega) (by exact_mod_cast hx),
        Int.emod_eq_of_lt (by omega) (by exact_mod_cast hy)]
    omega]
  rw [hold]
  dsimp only []
  rw [pySet, if_pos hlt]

theorem set_pixel_regs {s : Chip8} {x y : Int} {t : Chip8} {c : Nat}
    (h : set_pixel s x y = some (t, c)) : t.regs = s.regs := by
  unfold set_pixel at h
  dsimp only [] at h
  repeat (any_goals (split at h))
  all_goals
    first
    | (simp_all; done)
    | (simp only [Option.some.injEq, Prod.mk.injEq] at h
       obtain ⟨h1, -⟩ := h
       subst h1
       rfl)

theorem drawCols_zero (x y row col rem : Nat) (s : Chip8) :
    drawCols x y row 0 col rem s = some s := by
  induction rem generalizing col with
  | zero => rfl
  | succ n ih =>
    unfold drawCols
    norm_num
    exact ih (col + 1)

theorem drawCols_vf {x y row : Nat} : ∀ {rem sprite col : Nat} {s t : Chip8},
    drawCols x y row sprite col rem s = some t →
    pyGet s.regs 0xF = some 1 → pyGet t.regs 0xF = some 1 := by
  intro rem
  induction rem with
  | zero =>
    intro sprite col s t h hvf
    unfold drawCols at h
    simp only [Option.some.injEq] at h
    subst h
    exact hvf
  | succ n ih =>
    intro sprite col s t h hvf
    unfold drawCols at h
    dsimp only [] at h
    by_cases hbit : 0 < sprite &&& 128
    · rw [if_pos hbit] at h
      cases hgx : pyGet s.regs x with
      | none => rw [hgx] at h; exact Option.noConfusion h
      | some vx =>
        cases hgy : pyGet s.regs y with
        | none => rw [hgx, hgy] at h; exact Option.noConfusion h
        | some vy =>
          rw [hgx, hgy] at h
          dsimp only [] at h
          cases hsp : set_pixel s ((vx % 64 + col : Nat) : Int) ((vy % 32 + row : Nat) : Int) with
          | none => rw [hsp] at h; exact Option.noConfusion h
          | some p =>
            obtain ⟨t1, coll⟩ := p
            rw [hsp] at h
            dsimp only [] at h
            by_cases hcoll : coll ≠ 0
            · rw [if_pos hcoll] at h
              cases hps : pySet t1.regs 0xF 1 with
              | none => rw [hps] at h; exact Option.noConfusion h
              | some r =>
                rw [hps] at h
                dsimp only [] at h
                refine ih h ?_
                dsimp only []
                obtain ⟨hlt, hr⟩ := pySet_eq hps
                subst hr
                rw [pyGet, List.get?_eq_getElem?,
                    List.getElem?_set_self (by simpa using hlt)]
            · rw [if_neg hcoll] at h
              refine ih h ?_
              rw [set_pixel_regs hsp]
              exact hvf
    · rw [if_neg hbit] at h
      exact ih h hvf

theorem drawRows_vf {x y : Nat} : ∀ {rem row : Nat} {s t : Chip8},
    drawRows x y row rem s = some t →
    pyGet s.regs 0xF = some 1 → pyGet t.regs 0xF = some 1 := by
  intro rem
  induction rem with
  | zero =>
    intro row s t h hvf
    unfold drawRows at h
    simp only [Option.some.injEq] at h
    subst h
    exact hvf
  | succ n ih =>
    intro row s t h hvf
    unfold drawRows at h
    cases hgm : pyGet s.mem (s.i_reg + row) with
    | none => rw [hgm] at h; exact Option.noConfusion h
    | some sprite =>
      rw [hgm] at h
      dsimp only [] at h
      cases hdc : drawCols x y row sprite 0 8 s with
      | none => rw [hdc] at h; exact Option.noConfusion h
      | some s1 =>
        rw [hdc] at h
        dsimp only [] at h
        exact ih h (drawCols_vf hdc hvf)

theorem drawCols_sprite80 (a b : Nat) (s : Chip8)
    (h2 : s.resW = 64) (h3 : s.resH = 32)
    (h4 : s.regs = [a, b, 0, 0, 0, 0, 0, 0, 0, 0, 0, 0, 0, 0, 0, 0])
    (h5 : s.disp = List.replicate 2048 0) :
    drawCols 0 1 0 128 0 8 s =
      some { s with disp := (List.replicate 2048 0).set (a % 64 + b % 32 * 64) 1 } := by
  unfold drawCols
  rw [if_pos (by norm_num : 128 &&& 0x80 > 0)]
  rw [show pyGet s.regs 0 = some a from by rw [h4]; rfl,
      show pyGet s.regs 1 = some b from by rw [h4]; rfl]
  dsimp only []
  rw [set_pixel_inb s (a % 64 + 0) (b % 32 + 0) 0 (by omega) (by omega)
      (by rw [h5, pyGet, List.get?_eq_getElem?, List.getElem?_replicate_of_lt (by omega)])]
  dsimp only []
  rw [pyNot_zero, pyNot_one, if_neg (by simp)]
  rw [show (128 <<< 1) &&& 255 = 0 from by decide]
  dsimp only []
  rw [drawCols_zero]
  rw [h5]
  simp only [Nat.add_zero]

theorem drawRows_sprite80 (a b : Nat) (s : Chip8)
    (h2 : s.resW = 64) (h3 : s.resH = 32)
    (h4 : s.regs = [a, b, 0, 0, 0, 0, 0, 0, 0, 0, 0, 0, 0, 0, 0, 0])
    (h5 : s.disp = List.replicate 2048 0)
    (h6 : s.mem = [208, 17, 128]) (h7 : s.i_reg = 2) :
    drawRows 0 1 0 1 s =
      some { s with disp := (List.replicate 2048 0).set (a % 64 + b % 32 * 64) 1 } := by
  unfold drawRows
  rw [show pyGet s.mem (s.i_reg + 0) = some 128 from by rw [h6, h7]; rfl]
  dsimp only []
  rw [drawCols_sprite80 a b s h2 h3 h4 h5]
  dsimp only []
  unfold drawRows
  rfl

theorem writeBytes_cons_isSome : ∀ (data : List Nat) (b : Nat) (m : List Nat) (addr : Nat),
    (writeBytes m addr (b :: data)).isSome ↔ addr + (b :: data).length ≤ m.length := by
  intro data
  induction data with
  | nil =>
    intro b m addr
    unfold writeBytes pySet
    by_cases hlt : addr < m.length
    · rw [if_pos hlt]
      dsimp only []
      unfold writeBytes
      simp only [Option.isSome_some, List.length_cons, List.length_nil, true_iff]
      omega
    · rw [if_neg hlt]
      simp only [Option.isSome_none, Bool.false_eq_true, List.length_cons, List.length_nil,
        false_iff]
      omega
  | cons c rest ih =>
    intro b m addr
    unfold writeBytes pySet
    by_cases hlt : addr < m.length
    · rw [if_pos hlt]
      dsimp only []
      rw [ih c (m.set addr b) (addr + 1)]
      simp only [List.length_set, List.length_cons]
      omega
    · rw [if_neg hlt]
      simp only [Option.isSome_none, Bool.false_eq_true, List.length_cons, false_iff]
      omega

theorem load_rom_none (s : Chip8) (b : Nat) (data : List Nat)
    (h : s.mem.length < 0x200 + (b :: data).length) :
    load_rom s (b :: data) = none := by
  unfold load_rom
  cases hwb : writeBytes s.mem 0x200 (b :: data) with
  | none => rfl
  | some m =>
    exfalso
    have hs := (writeBytes_cons_isSome data b s.mem 0x200).mp (by rw [hwb]; rfl)
    simp only [List.length_cons] at hs h
    omega

theorem load_rom_isSome_of (s : Chip8) (b : Nat) (data : List Nat)
    (h : 0x200 + (b :: data).length ≤ s.mem.length) :
    (load_rom s (b :: data)).isSome = true := by
  unfold load_rom
  cases hwb : writeBytes s.mem 0x200 (b :: data) with
  | none =>
    exfalso
    have hs := (writeBytes_cons_isSome data b s.mem 0x200).mpr h
    rw [hwb] at hs
    exact Bool.noConfusion hs
  | some m => rfl

/-- C1 counterexample: with clipping enabled, a Dxyn draw whose only set
sprite bit falls outside the display (origin V0 = 63, sprite byte 0x01,
so the target column is 70) leaves the display untouched, yet ends with
VF = 1.  The claim says a skipped out-of-bounds pixel does not affect VF
and that VF = 1 only when some toggle turned a pixel from set to clear;
here no pixel was ever set, so no such toggle happened. -/
theorem c1_counterexample :
    (tick c1State 0).map (fun t => pyGet t.regs 0xF) = some (some 1) ∧
    (tick c1State 0).map (fun t => t.disp) = some (List.replicate 2048 0) := by
  constructor <;> rfl


/-- C1 amended: with the clipping quirk, an out-of-bounds target pixel is
not drawn and not wrapped, but set_pixel reports it exactly like a
collision (it returns 1, which makes the draw loop set VF to 1); an
in-bounds target pixel is XOR-toggled and the value reported is 1 exactly
when the pixel went from set to clear; and once VF is 1 it stays 1 for the
rest of the sprite loop. -/
theorem c1_theorem :
    (∀ (s : Chip8) (x y : Int), s.QUIRK_clipping = true →
        ((s.resW : Int) ≤ x ∨ (s.resH : Int) ≤ y ∨ x < 0 ∨ y < 0) →
        set_pixel s x y = some (s, 1)) ∧
    (∀ (s : Chip8) (x y old : Nat), x < s.resW → y < s.resH →
        pyGet s.disp (x + y * 64) = some old →
        set_pixel s (x : Int) (y : Int) =
          some ({ s with disp := s.disp.set (x + y * 64) (pyNot old) }, pyNot (pyNot old)) ∧
        (pyNot (pyNot old) = 1 ↔ old ≠ 0)) ∧
    (∀ (x y row rem : Nat) (s t : Chip8),
        drawRows x y row rem s = some t →
        pyGet s.regs 0xF = some 1 → pyGet t.regs 0xF = some 1) := by
  refine ⟨set_pixel_clip,
    fun s x y old hx hy hold => ⟨set_pixel_inb s x y old hx hy hold, ?_⟩,
    fun x y row rem s t h hvf => drawRows_vf h hvf⟩
  unfold pyNot
  by_cases h0 : old = 0 <;> simp [h0]


/-- Witness for c1_theorem at concrete inputs: a clipped pixel at x = 99,
an in-bounds toggle at (3, 2), and a one-row draw that preserves VF = 1. -/
theorem c1_witness :
    set_pixel (c9St 0 0 true) 99 0 = some (c9St 0 0 true, 1) ∧
    (set_pixel (c9St 0 0 true) ((3 : Nat) : Int) ((2 : Nat) : Int) =
        some ({ c9St 0 0 true with disp := (c9St 0 0 true).disp.set (3 + 2 * 64) (pyNot 0) },
          pyNot (pyNot 0)) ∧
      (pyNot (pyNot 0) = 1 ↔ (0 : Nat) ≠ 0)) ∧
    pyGet c1WitT.regs 0xF = some 1 :=
  ⟨c1_theorem.1 (c9St 0 0 true) 99 0 rfl (Or.inl (by decide)),
   c1_theorem.2.1 (c9St 0 0 true) 3 2 0 (by decide) (by decide) (by decide),
   c1_theorem.2.2 0 1 0 1 c1Wit2 c1WitT rfl rfl⟩


/-- C2: executing 00EE on an empty stack (sp = 0) does not fail with
StackUnderflow; the stack pointer wraps through the Python modulo to 46
and execution continues.  Executing 2nnn at sp = 46 (the value reached
after 23 nested calls, so the 24th call fills the stack) wraps the
pointer through 48 back to 0.  Both contradict the claim that the
pointer never wraps modulo the stack size; this is the divergence the
specification itself flags as a defect of the original. -/
theorem c2_theorem :
    (tick c2UnderState 0).map (fun t => (t.sp, t.pc)) = some (46, 0) ∧
    (tick c2OverState 0).map (fun t => t.sp) = some 0 := by
  constructor <;> rfl


/-- C3 counterexample: with x = 0xF (opcode 0x8F04), VF = 2 and V0 = 0,
the claim predicts Vx = VF = (2 + 0) mod 256 = 2, but the code leaves
VF = 0 (the carry flag overwrites the sum). -/
theorem c3_counterexample :
    (tick c3State 0).map (fun t => pyGet t.regs 0xF) = some (some 0) ∧
    (0 : Nat) ≠ (2 + 0) % 256 := by
  constructor
  · rfl
  · decide


/-- C3 amended: for any fetched 8xy4 instruction with destination register
x different from 0xF, the step succeeds, Vx becomes (a + b) mod 256 and VF
becomes 1 exactly when a + b exceeds 255, where a and b are the values of
Vx and Vy before the instruction.  For x = 0xF the claim fails (see the
counterexample): the sum is overwritten by the carry flag. -/
theorem c3_theorem (s : Chip8) (rnd hi lo x y a b : Nat)
    (h1 : pyGet s.mem s.pc = some hi) (h2 : pyGet s.mem (s.pc + 1) = some lo)
    (hfam : (hi <<< 8 ||| lo) &&& 0xF000 = 0x8000)
    (hx : ((hi <<< 8 ||| lo) &&& 0x0F00) >>> 8 = x)
    (hy : ((hi <<< 8 ||| lo) &&& 0x00F0) >>> 4 = y)
    (hlow : (hi <<< 8 ||| lo) &&& 0x000F = 4)
    (hlen : s.regs.length = 16) (hxF : x ≠ 0xF)
    (ha : pyGet s.regs x = some a) (hb : pyGet s.regs y = some b) :
    ∃ t, tick s rnd = some t ∧ pyGet t.regs x = some ((a + b) % 256) ∧
      pyGet t.regs 0xF = some (if 255 < a + b then 1 else 0) := by
  have hxlt : x < 16 := by
    rw [← hlen]
    rw [pyGet, List.get?_eq_getElem?] at ha
    exact (List.getElem?_eq_some_iff.mp ha).1
  have hmask : (a + b) &&& 255 = (a + b) % 256 := by
    have := Nat.and_pow_two_sub_one_eq_mod (a + b) 8
    norm_num at this
    exact this
  unfold tick tickAux
  rw [h1, h2]
  dsimp only []
  rw [hfam, hlow, hx, hy]
  dsimp only []
  rw [ha, hb]
  dsimp only []
  rw [pySet, if_pos (by simp only [hlen]; exact hxlt)]
  dsimp only []
  rw [pyGet, List.get?_eq_getElem?, List.getElem?_set_self (by simp [hlen, hxlt])]
  dsimp only []
  rw [pySet, if_pos (by simp only [List.length_set, hlen]; norm_num)]
  dsimp only []
  rw [pyGet, List.get?_eq_getElem?, List.getElem?_set_ne (Ne.symm hxF),
      List.getElem?_set_self (by simp [hlen, hxlt])]
  dsimp only []
  rw [pySet, if_pos (by simp only [List.length_set, hlen]; exact hxlt)]
  dsimp only []
  refine ⟨_, rfl, ?_, ?_⟩
  · show pyGet (((s.regs.set x (a + b)).set 15 _).set x ((a + b) &&& 255)) x = _
    rw [pyGet, List.get?_eq_getElem?,
        List.getElem?_set_self (by simp [hlen, hxlt]), hmask]
  · show pyGet (((s.regs.set x (a + b)).set 15 _).set x ((a + b) &&& 255)) 15 = _
    rw [pyGet, List.get?_eq_getElem?, List.getElem?_set_ne hxF,
        List.getElem?_set_self (by simp [hlen])]


/-- Witness for c3_theorem: opcode 0x8124 with V1 = 200, V2 = 100 gives
V1 = 44 and VF = 1. -/
theorem c3_witness :
    ∃ t, tick c3WitState 0 = some t ∧
      pyGet t.regs 1 = some ((200 + 100) % 256) ∧
      pyGet t.regs 0xF = some (if 255 < 200 + 100 then 1 else 0) :=
  c3_theorem c3WitState 0 0x81 0x24 1 2 200 100 rfl rfl (by decide) (by decide) (by decide)
    (by decide) rfl (by decide) rfl rfl


/-- C4 counterexample: a Dxyn step with disp_wait on, the faker off, no
tick boundary observed, and a latched key 5 returns early and leaves the
latch set to 5, so the latch is not cleared at the end of every step. -/
theorem c4_counterexample :
    (tick c4State 0).map (fun t => t.kb_interrupt) = some (some 5) := by rfl


/-- C4 amended: after any successful tick, either the key latch has been
cleared, or the step suspended through one of the two early returns, in
which case the program counter is rolled back to the instruction address
and the latch is exactly what it was before the step.  The display-wait
return of Dxyn thus preserves a pending latch, contradicting the claim
that the latch is cleared at the end of every step. -/
theorem c4_theorem (s : Chip8) (rnd : Nat) (t : Chip8) (h : tick s rnd = some t) :
    t.kb_interrupt = none ∨ (t.pc = s.pc ∧ t.kb_interrupt = s.kb_interrupt) := by
  unfold tick at h
  cases haux : tickAux s rnd with
  | none => rw [haux] at h; exact Option.noConfusion h
  | some p =>
    rw [haux] at h
    obtain ⟨t0, early⟩ := p
    cases early with
    | false =>
      simp only [Bool.false_eq_true, if_false, Option.some.injEq] at h
      subst h
      exact Or.inl rfl
    | true =>
      simp only [if_true, Option.some.injEq] at h
      subst h
      exact Or.inr (tickAux_early haux)


/-- Witness for c4_theorem at a display-wait suspension: the state is
returned unchanged, so both disjuncts are decidable at the instance. -/
theorem c4_witness :
    c4State.kb_interrupt = none ∨
      (c4State.pc = c4State.pc ∧ c4State.kb_interrupt = c4State.kb_interrupt) :=
  c4_theorem c4State 0 c4State rfl


/-- C5 counterexample: on the real 4096-byte store, Fx33 with I = 0xFFE
indexes memory at 0x1000, past the end; the step crashes (IndexError)
instead of wrapping the address modulo 0x1000 as the claim states. -/
theorem c5_counterexample :
    tick c5State 0 = none := by
  have h0 : pyGet c5State.mem 0 = some 0xF0 := by
    show pyGet (((List.replicate 4096 0).set 0 0xF0).set 1 0x33) 0 = some 0xF0
    rw [pyGet, List.get?_eq_getElem?, List.getElem?_set_ne (by decide),
        List.getElem?_set_self (by simp only [List.length_replicate]; decide)]
  have h1 : pyGet c5State.mem (0 + 1) = some 0x33 := by
    show pyGet (((List.replicate 4096 0).set 0 0xF0).set 1 0x33) 1 = some 0x33
    rw [pyGet, List.get?_eq_getElem?,
        List.getElem?_set_self (by simp only [List.length_set, List.length_replicate]; decide)]
  have hpc : c5State.pc = 0 := rfl
  unfold tick tickAux
  rw [hpc, h0, h1]
  simp only [pyGet, pySet]
  have hreg : c5State.regs.get? (((240 <<< 8 ||| 51) &&& 3840) >>> 8) = some 0 := by
    show (List.replicate 16 0).get? (((240 <<< 8 ||| 51) &&& 3840) >>> 8) = some 0
    rw [List.get?_eq_getElem?]
    rw [show (((240 <<< 8 ||| 51) &&& 3840) >>> 8) = 0 from by decide]
    exact List.getElem?_replicate_of_lt (by decide)
  have hlen : c5State.mem.length = 4096 := by
    show (((List.replicate 4096 0).set 0 0xF0).set 1 0x33).length = 4096
    simp only [List.length_set, List.length_replicate]
  have hI : c5State.i_reg = 0xFFE := rfl
  rw [hreg]
  simp only [hI, hlen, List.length_set]
  norm_num
  simp only [hlen, List.length_set]
  norm_num
  rw [hlen]
  norm_num


/-- C5 amended: the I register itself is masked to twelve bits after an
Fx1E (so it stays below 4096), but effective addresses are not reduced
before memory is indexed: an Fx33 whose writes reach past the end of the
store makes the step fail with an out-of-range error rather than wrap. -/
theorem c5_theorem :
    (∀ (s : Chip8) (rnd hi lo : Nat) (t : Chip8),
        pyGet s.mem s.pc = some hi → pyGet s.mem (s.pc + 1) = some lo →
        (hi <<< 8 ||| lo) &&& 0xF000 = 0xF000 →
        (hi <<< 8 ||| lo) &&& 0x00FF = 0x1E →
        tick s rnd = some t → t.i_reg < 4096) ∧
    (∀ (s : Chip8) (rnd hi lo : Nat),
        pyGet s.mem s.pc = some hi → pyGet s.mem (s.pc + 1) = some lo →
        (hi <<< 8 ||| lo) &&& 0xF000 = 0xF000 →
        (hi <<< 8 ||| lo) &&& 0x00FF = 0x33 →
        s.mem.length ≤ s.i_reg + 2 → tick s rnd = none) := by
  constructor
  · intro s rnd hi lo t h1 h2 hfam hlow h
    unfold tick tickAux at h
    rw [h1, h2] at h
    dsimp only [] at h
    rw [hfam, hlow] at h
    dsimp only [] at h
    cases hg : pyGet s.regs (((hi <<< 8 ||| lo) &&& 0x0F00) >>> 8) with
    | none => rw [hg] at h; exact Option.noConfusion h
    | some vx =>
      rw [hg] at h
      dsimp only [] at h
      simp only [Bool.false_eq_true, if_false, Option.some.injEq] at h
      subst h
      have hm := Nat.and_pow_two_sub_one_eq_mod (s.i_reg + vx) 12
      norm_num at hm
      show (s.i_reg + vx) &&& 4095 < 4096
      rw [hm]
      omega
  · intro s rnd hi lo h1 h2 hfam hlow hlen
    unfold tick tickAux
    rw [h1, h2]
    dsimp only []
    rw [hfam, hlow]
    dsimp only []
    cases hg : pyGet s.regs (((hi <<< 8 ||| lo) &&& 0x0F00) >>> 8) with
    | none => rfl
    | some vx =>
      dsimp only []
      unfold pySet
      by_cases ha : s.i_reg + 0 < s.mem.length
      · rw [if_pos ha]
        dsimp only []
        by_cases hb : s.i_reg + 1 < (s.mem.set (s.i_reg + 0) (vx / 100)).length
        · rw [if_pos hb]
          dsimp only []
          rw [if_neg (by simp only [List.length_set]; omega)]
        · rw [if_neg hb]
      · rw [if_neg ha]


/-- Witness for c5_theorem: an Fx1E step from I = 0 stays below 4096, and
an Fx33 on a two-byte memory with I = 0 fails. -/
theorem c5_witness :
    c5aT.i_reg < 4096 ∧ tick c5bState 0 = none :=
  ⟨c5_theorem.1 c5aState 0 0xF0 0x1E c5aT rfl rfl (by decide) (by decide) rfl,
   c5_theorem.2 c5bState 0 0xF2 0x33 rfl rfl (by decide) (by decide) (by decide)⟩


/-- C6: loading a 3585-byte ROM into the 4096-byte memory does not fail
with a RomTooLarge error: the copy loop runs off the end of the store and
raises IndexError (modelled as none).  A 3584-byte ROM, the exact
capacity, loads successfully.  There is no size check in load_rom. -/
theorem c6_theorem :
    load_rom memState (List.replicate 3585 7) = none ∧
    (load_rom memState (List.replicate 3584 7)).isSome = true := by
  have hm : memState.mem = List.replicate 4096 0 := rfl
  constructor
  · refine load_rom_none memState 7 (List.replicate 3584 7) ?_
    rw [hm]
    simp only [List.length_cons, List.length_replicate]
    omega
  · refine load_rom_isSome_of memState 7 (List.replicate 3583 7) ?_
    rw [hm]
    simp only [List.length_cons, List.length_replicate]
    omega


/-- C7: the unmatched instruction word 0x0000 is executed as a pure no-op:
the program counter advances by 2, the latch is cleared as at the end of
every completed step, and registers, memory, stack, display and timers
are untouched.  No UnknownOpcode diagnostic exists anywhere in tick:
the word is silently swallowed, contradicting the claim. -/
theorem c7_theorem :
    tick c7State 0 = some { c7State with pc := 2, kb_interrupt := none } := by rfl


/-- C8: starting from a program whose instruction at 0 calls address 0,
24 nested calls leave sp = 0 (the pointer has silently wrapped through the
48-byte stack) and the 25th call succeeds with sp = 2, overwriting the
oldest frame instead of raising StackOverflow.  The call and return round
trip itself works: one call followed by the matching 00EE restores PC to
the instruction after the call. -/
theorem c8_theorem :
    (iterTick 24 c8State).map (fun t => (t.sp, t.pc)) = some (0, 0) ∧
    (iterTick 25 c8State).map (fun t => (t.sp, t.pc)) = some (2, 0) ∧
    (iterTick 2 rtState).map (fun t => (t.pc, t.sp)) = some (2, 0) := by
  refine ⟨?_, ?_, ?_⟩ <;> rfl


/-- C9: for every origin (a, b) - not just 8-bit values - and either
clipping setting, drawing the one-byte sprite 0x80 with Dxyn sets the
display pixel at the wrapped position (a mod 64, b mod 32): the origin is
reduced modulo the display size before clipping is considered, so a
sprite whose origin lies outside the display is still drawn on screen. -/
theorem c9_theorem (a b : Nat) (clip : Bool) :
    (tick (c9St a b clip) 0).bind (fun t => pyGet t.disp (a % 64 + b % 32 * 64)) = some 1 := by
  unfold tick tickAux c9St
  dsimp only []
  simp only [pyGet, List.get?]
  norm_num [-List.reduceReplicate]
  unfold drawBody
  dsimp only []
  rw [show ((208 <<< 8 ||| 17) &&& 3840) >>> 8 = 0 from by decide,
      show ((208 <<< 8 ||| 17) &&& 240) >>> 4 = 1 from by decide,
      show (208 <<< 8 ||| 17) &&& 15 = 1 from by decide]
  rw [pySet]
  norm_num [-List.reduceReplicate]
  rw [drawRows_sprite80 a b _ rfl rfl rfl rfl rfl rfl]
  show ((List.replicate 2048 0).set (a % 64 + b % 32 * 64) 1)[a % 64 + b % 32 * 64]? = some 1
  rw [List.getElem?_set_self (by simp only [List.length_replicate]; omega)]


/-- C10: a tick whose fetched instruction word is not in the 0xC000
(random) family is independent of the injected random byte: running it
with any two random bytes from the same state gives identical results, so
one CPU step is deterministic for every non-Cxnn instruction. -/
theorem c10_theorem (s : Chip8) (hi lo r1 r2 : Nat)
    (h1 : pyGet s.mem s.pc = some hi) (h2 : pyGet s.mem (s.pc + 1) = some lo)
    (hc : (hi <<< 8 ||| lo) &&& 0xF000 ≠ 0xC000) :
    tick s r1 = tick s r2 := by
  unfold tick
  suffices haux : tickAux s r1 = tickAux s r2 by rw [haux]
  unfold tickAux
  rw [h1, h2]
  dsimp only []
  split
  all_goals first | rfl | (exact absurd (by assumption) hc)


/-- Witness for c10_theorem: a 1nnn jump behaves identically under random
bytes 3 and 250. -/
theorem c10_witness : tick c10State 3 = tick c10State 250 :=
  c10_theorem c10State 0x12 0x34 3 250 rfl rfl (by decide)

